import Mathlib

/-!
Verification of the Stripe-to-BigCommerce reconciliation webhook.

This file shallowly embeds the reconciliation pipeline of
src/api/stripe-webhook.js (the current revision, the second handler in the
file) and the signed-URL media relay of src/api/stream.js.  Upstream HTTP
responses are supplied through explicit environment records, and every
outbound call is recorded in a trace, so that claims about which upstream
calls happen (and with which arguments) become statements about the trace.
-/

deriving instance DecidableEq for Except

namespace BweSpec

/-- JS truthiness of an optional string variable: null, undefined and the
empty string are falsy. -/
def strTruthy : Option String → Bool
  | some s => s ≠ ""
  | none => false

/-- JS a || b on string-valued expressions. -/
def jsOrS (a b : Option String) : Option String :=
  if strTruthy a then a else b

/-- JS x || null on a string-valued expression: falsy values collapse to null. -/
def truthyOrNone (a : Option String) : Option String :=
  if strTruthy a then a else none

/-- JS x || two-quote-empty-string on a string-valued expression. -/
def jsStr (a : Option String) : String :=
  if strTruthy a then a.getD "" else ""

/-- JS truthiness on optional numeric ids (id || null): null and 0 are falsy. -/
def idTruthy : Option Int → Option Int
  | some i => if i = 0 then none else some i
  | none => none

/-- Boolean(g) on an optional numeric value: null and 0 are falsy. -/
def groupTruthy : Option Int → Bool
  | some g => g ≠ 0
  | none => false

/-- Model of the JS toLowerCase call (basic latin, character by character),
as used on emails by the directory adapter. -/
def jsToLower (s : String) : String :=
  ⟨s.data.map Char.toLower⟩

/-- Model of the JS trim call: drop whitespace from both ends. -/
def jsTrim (s : String) : String :=
  ⟨((s.data.dropWhile Char.isWhitespace).reverse.dropWhile Char.isWhitespace).reverse⟩

/-- Email normalization used by the BC adapter: (email || two quotes).trim().toLowerCase(). -/
def normEmail (email : String) : String :=
  jsToLower (jsTrim email)

/-- res.ok for a fetch response: status in the 200-299 range. -/
def httpOk (status : Nat) : Bool :=
  decide (200 ≤ status ∧ status < 300)

/-- Does the first list start the second one? -/
def startsWithL : List Char → List Char → Bool
  | [], _ => true
  | _ :: _, [] => false
  | a :: as, b :: bs => a = b && startsWithL as bs

/-- Does the first list occur inside the second one? -/
def containsL (needle : List Char) : List Char → Bool
  | [] => startsWithL needle []
  | b :: bs => startsWithL needle (b :: bs) || containsL needle bs

/-- Model of the case-insensitive regex test for the substring array over a
response body, used by the group-update fallback test. -/
def mentionsArray (txt : String) : Bool :=
  containsL "array".data (jsToLower txt).data

/-- Modelled from the spec: HMAC-SHA256 (Node crypto / the Stripe SDK
signature check) as an opaque keyed MAC whose outputs the code only compares
for equality.  Represented by a concrete injective pairing of key and
message; its outputs are never the empty string. -/
def hmacSha256 (key msg : String) : String :=
  "hmac:" ++ toString key.length ++ ":" ++ key ++ "|" ++ msg

/-- One outbound upstream call, with the arguments the code sends. -/
inductive UpCall where
  | retrieveSession (sessionId : String)
  | retrieveCustomer (customerId : String)
  | bcLookupV3 (email : String)
  | bcLookupV2 (email : String)
  | bcCreateV3 (email : String) (groupAtCreate : Option Int)
  | bcCreateV2 (email : String)
  | bcPatch (customerId groupId : Int)
  | bcPut (customerId groupId : Int)
deriving Repr, DecidableEq

/-- Is this a commerce-platform (BigCommerce) call, as opposed to a
payment-provider (Stripe) retrieval? -/
def isBcCall : UpCall → Bool
  | UpCall.retrieveSession _ => false
  | UpCall.retrieveCustomer _ => false
  | _ => true

/-- One customer record as parsed out of a BC lookup response body. -/
structure BcCustomerRec where
  id : Int
  email : String
deriving Repr, DecidableEq

/-- The upstream responses the BigCommerce adapter functions can observe
during one request.  Each endpoint is called at most once per request.
A data field of none models a response body that does not parse to the
expected array shape. -/
structure BcEnv where
  v3LookupStatus : Nat
  v3LookupData : Option (List BcCustomerRec)
  v2LookupStatus : Nat
  v2LookupData : Option (List BcCustomerRec)
  v3CreateStatus : Nat
  v3CreateId : Option Int
  v2CreateStatus : Nat
  v2CreateId : Option Int
  patchStatus : Nat
  patchText : String
  putStatus : Nat
deriving Repr, DecidableEq

/-- json.data.find of the record whose lowercased email equals the
normalized query email (data not an array gives no match). -/
def findByEmail (data : Option (List BcCustomerRec)) (normalized : String) : Option BcCustomerRec :=
  (data.getD []).find? (fun r => jsToLower r.email == normalized)

/-- Embedding of lookupBcCustomerIdByEmail (stripe-webhook.js lines 230-256).
The v3 branch throws for status 404 (the try-v2 marker) and for every other
non-ok status; the catch block logs non-marker errors and then falls back to
the v2 query-style lookup unconditionally.  Only a v2 failure is fatal. -/
def lookupBcCustomerIdByEmail (env : BcEnv) (email : String) :
    Except String (Option Int) × List UpCall :=
  let normalized := normEmail email
  if httpOk env.v3LookupStatus then
    let first := findByEmail env.v3LookupData normalized
    (Except.ok (idTruthy (first.map BcCustomerRec.id)), [UpCall.bcLookupV3 normalized])
  else
    let calls := [UpCall.bcLookupV3 normalized, UpCall.bcLookupV2 normalized]
    if httpOk env.v2LookupStatus then
      let first := findByEmail env.v2LookupData normalized
      (Except.ok (idTruthy (first.map BcCustomerRec.id)), calls)
    else
      (Except.error ("BC v2 lookup failed (" ++ toString env.v2LookupStatus ++ ")"), calls)

/-- Result of createBcCustomer: the new id and whether the group was already
applied by the v3 create payload. -/
structure CreateResult where
  id : Int
  groupAppliedAtCreate : Bool
deriving Repr, DecidableEq

/-- The v2 leg of createBcCustomer (minimal fields, no group at create). -/
def createBcCustomerV2 (env : BcEnv) (normalized : String) (prior : List UpCall) :
    Except String CreateResult × List UpCall :=
  let calls := prior ++ [UpCall.bcCreateV2 normalized]
  if httpOk env.v2CreateStatus then
    match idTruthy env.v2CreateId with
    | some i => (Except.ok ⟨i, false⟩, calls)
    | none => (Except.error "BC v2 create returned no id", calls)
  else
    (Except.error ("BC v2 create failed (" ++ toString env.v2CreateStatus ++ ")"), calls)

/-- Embedding of createBcCustomer (stripe-webhook.js lines 259-305).  The v3
payload includes customer_group_id only when groupId is truthy.  Every v3
failure (non-ok status, or an ok response carrying no usable id) lands in the
catch block and falls through to the v2 create; only v2 failures are fatal. -/
def createBcCustomer (env : BcEnv) (email firstName lastName : String)
    (groupId : Option Int) : Except String CreateResult × List UpCall :=
  let normalized := normEmail email
  let payloadGroup : Option Int := if groupTruthy groupId then groupId else none
  let v3call := UpCall.bcCreateV3 normalized payloadGroup
  if httpOk env.v3CreateStatus then
    match idTruthy env.v3CreateId with
    | some i => (Except.ok ⟨i, groupTruthy groupId⟩, [v3call])
    | none => createBcCustomerV2 env normalized [v3call]
  else
    createBcCustomerV2 env normalized [v3call]

/-- The response signal the code treats as demanding the bulk form
(status 422 or 404, or a body mentioning array), stripe-webhook.js line 319. -/
def patchMismatchSignal (env : BcEnv) : Bool :=
  env.patchStatus == 422 || env.patchStatus == 404 || mentionsArray env.patchText

/-- Embedding of setBcCustomerGroup (stripe-webhook.js lines 308-331).  A
successful PATCH ends the operation.  A non-mismatch PATCH failure raises
inside the try block, but the catch only logs, so every PATCH failure
proceeds to the bulk PUT; a PUT failure is fatal. -/
def setBcCustomerGroup (env : BcEnv) (customerId groupId : Int) :
    Except String Unit × List UpCall :=
  let patchCall := UpCall.bcPatch customerId groupId
  if httpOk env.patchStatus then
    (Except.ok (), [patchCall])
  else
    let calls := [patchCall, UpCall.bcPut customerId groupId]
    if httpOk env.putStatus then
      (Except.ok (), calls)
    else
      (Except.error ("BC group PUT failed (" ++ toString env.putStatus ++ ")"), calls)

/-- Embedding of priceToGroupId (stripe-webhook.js lines 334-341): first
price id that is truthy and has a truthy entry in the map wins. -/
def priceToGroupId (tbl : List (String × Int)) : List String → Option Int
  | [] => none
  | pid :: rest =>
    if pid ≠ "" then
      match List.lookup pid tbl with
      | some g => if g ≠ 0 then some g else priceToGroupId tbl rest
      | none => priceToGroupId tbl rest
    else
      priceToGroupId tbl rest

/-- The BigCommerce sentinel for no customer group (stripe-webhook.js line 202). -/
def NO_GROUP : Int := 0

/-- Drop members from their group on payment failure (line 200). -/
def REMOVE_ON_PAYMENT_FAILED : Bool := true

/-- Name splitting of the purchase path (lines 452-454): split the display
name on whitespace runs, dropping empty tokens, defaulting to the
placeholder tokens. -/
def splitName (fullName : String) : String × String :=
  let parts := ((List.splitOnP Char.isWhitespace (jsTrim fullName).data).map
      (fun l => String.mk l)).filter (fun s => s ≠ "")
  (match parts with
   | [] => "Member"
   | p :: _ => p,
   let rest := String.intercalate " " parts.tail
   if rest = "" then "Account" else rest)

/-- One line item, viewed through the two price-id field paths the handler
reads (the new pricing.price_details.price path and the old price.id path). -/
structure LineItem where
  pricingPrice : Option String
  priceId : Option String
deriving Repr, DecidableEq

/-- A retrieved checkout session, through the fields the handler reads. -/
structure Session where
  lineItems : List LineItem
  detailsEmail : Option String
  customerEmail : Option String
  detailsName : Option String
  customer : Option String
deriving Repr, DecidableEq

/-- An invoice event object, through the fields the handler reads. -/
structure Invoice where
  lines : List LineItem
  customerEmail : Option String
  detailsEmail : Option String
  customer : Option String
deriving Repr, DecidableEq

/-- A retrieved Stripe customer, through the fields the handler reads. -/
structure StripeCustomer where
  email : Option String
  name : Option String
deriving Repr, DecidableEq

/-- Set.add on the discovery-ordered list of price ids. -/
def addPid (s : List String) (p : String) : List String :=
  if p ∈ s then s else s ++ [p]

/-- Add an optional price id to the set when it is truthy. -/
def addIfTruthy (s : List String) (o : Option String) : List String :=
  match o with
  | some p => if p ≠ "" then addPid s p else s
  | none => s

/-- The price-id harvest of collectFromSession / collectFromInvoice: for each
line item add the new-shape id, then the old-shape id, when truthy. -/
def collectLineItems (acc : List String) (items : List LineItem) : List String :=
  items.foldl (fun a li => addIfTruthy (addIfTruthy a li.pricingPrice) li.priceId) acc

/-- The parsed webhook event.  data.object is viewed through the fields the
handler reads for each event type; only the view matching the type string is
ever consulted. -/
structure EventObj where
  type : String
  sessionId : String
  invoice : Invoice
  subCustomer : Option String
deriving Repr, DecidableEq

/-- The environment of one handler invocation: configuration plus the
responses the upstream systems would give.  Each retrieval happens at most
once per request; none models a retrieval that throws. -/
structure HEnv where
  secret : String
  priceMap : List (String × Int)
  retrieveSession : Option Session
  retrieveCustomer : Option StripeCustomer
  bc : BcEnv
deriving Repr, DecidableEq

/-- The inbound request as the handler sees it: method, signature header, the
raw body bytes, and the event that body encodes. -/
structure Req where
  method : String
  stripeSignature : Option String
  rawBody : String
  parsedEvent : EventObj
deriving Repr, DecidableEq

/-- Modelled from the spec: stripe.webhooks.constructEvent recomputes the
signature over the exact raw bytes with the shared secret and fails closed on
a missing or mismatched signature header. -/
def constructEvent (secret rawBody : String) (sigHeader : Option String)
    (parsed : EventObj) : Except String EventObj :=
  match sigHeader with
  | none => Except.error "missing stripe-signature header"
  | some s =>
    if s = hmacSha256 secret rawBody then Except.ok parsed
    else Except.error "signature verification failed"

/-- The response body shapes the handler produces. -/
inductive RespBody where
  | okTrue (ignored : Option String)
  | okFalse (error : String)
  | text (msg : String)
deriving Repr, DecidableEq

/-- The observable outcome of one handler invocation: HTTP status, response
body, and the trace of outbound upstream calls in order. -/
structure HandlerResult where
  status : Nat
  body : RespBody
  calls : List UpCall
deriving Repr, DecidableEq

/-- Normalization for checkout.session.completed (lines 391-397): retrieve
the session, harvest price ids, resolve email from session fields with the
customer-resource fallback, resolve the display name.  Returns
(email, fullName, priceIds, calls). -/
def normalizeCheckout (env : HEnv) (sessionId : String) :
    Option String × String × List String × List UpCall :=
  let calls0 := [UpCall.retrieveSession sessionId]
  match env.retrieveSession with
  | none => (none, "", [], calls0)
  | some s =>
    let pids := collectLineItems [] s.lineItems
    let email1 := truthyOrNone (jsOrS s.detailsEmail s.customerEmail)
    let name1 := jsStr s.detailsName
    if email1.isNone ∧ strTruthy s.customer then
      let calls := calls0 ++ [UpCall.retrieveCustomer (s.customer.getD "")]
      match env.retrieveCustomer with
      | none => (email1, name1, pids, calls)
      | some c =>
        (truthyOrNone c.email, (if name1 ≠ "" then name1 else jsStr c.name), pids, calls)
    else
      (email1, name1, pids, calls0)

/-- Normalization for invoice.payment_succeeded / invoice.payment_failed
(lines 398-404): harvest price ids from the invoice lines, resolve email from
invoice fields with the customer-resource fallback. -/
def normalizeInvoice (env : HEnv) (inv : Invoice) :
    Option String × String × List String × List UpCall :=
  let pids := collectLineItems [] inv.lines
  let email1 := truthyOrNone (jsOrS inv.customerEmail inv.detailsEmail)
  if strTruthy inv.customer then
    let calls := [UpCall.retrieveCustomer (inv.customer.getD "")]
    match env.retrieveCustomer with
    | none => (email1, "", pids, calls)
    | some c =>
      ((if email1.isNone then truthyOrNone c.email else email1), jsStr c.name, pids, calls)
  else
    (email1, "", pids, [])

/-- Email resolution of the subscription-deleted path (lines 418-424): fetch
the customer resource of the subscription; a missing customer reference or a
failed retrieval leaves the email unresolved. -/
def resolveSubEmail (env : HEnv) (subCustomer : Option String) :
    Option String × String × List UpCall :=
  match subCustomer with
  | none => (none, "", [])
  | some cid =>
    match env.retrieveCustomer with
    | none => (none, "", [UpCall.retrieveCustomer cid])
    | some c => (truthyOrNone c.email, jsStr c.name, [UpCall.retrieveCustomer cid])

/-- The group application decision of the purchase path (lines 467-472):
call setBcCustomerGroup only for a truthy target group that was not already
applied at create time. -/
def applyIfTarget (env : HEnv) (bcId : Int) (target : Option Int)
    (appliedAtCreate : Bool) (calls : List UpCall) : HandlerResult :=
  if groupTruthy target ∧ ¬ appliedAtCreate then
    let r := setBcCustomerGroup env.bc bcId (target.getD 0)
    match r.1 with
    | Except.error m => ⟨500, RespBody.okFalse m, calls ++ r.2⟩
    | Except.ok _ => ⟨200, RespBody.okTrue none, calls ++ r.2⟩
  else
    ⟨200, RespBody.okTrue none, calls⟩

/-- The purchase routing (lines 443-476): skip without email, resolve the
tier, lookup-or-create the customer, then apply the group. -/
def routePurchase (env : HEnv) (email : Option String) (fullName : String)
    (pids : List String) (calls0 : List UpCall) : HandlerResult :=
  match email with
  | none => ⟨200, RespBody.okTrue none, calls0⟩
  | some e =>
    let targetGroupId := priceToGroupId env.priceMap pids
    let fl := splitName fullName
    let lk := lookupBcCustomerIdByEmail env.bc e
    let calls1 := calls0 ++ lk.2
    match lk.1 with
    | Except.error m => ⟨500, RespBody.okFalse m, calls1⟩
    | Except.ok (some bcId) => applyIfTarget env bcId targetGroupId false calls1
    | Except.ok none =>
      let cr := createBcCustomer env.bc e fl.1 fl.2 (idTruthy targetGroupId)
      let calls2 := calls1 ++ cr.2
      match cr.1 with
      | Except.error m => ⟨500, RespBody.okFalse m, calls2⟩
      | Except.ok created =>
        applyIfTarget env created.id targetGroupId created.groupAppliedAtCreate calls2

/-- The subscription-deleted routing (lines 415-440): resolve the customer
email, look the customer up, and clear the group with the sentinel. -/
def routeSubDeleted (env : HEnv) (subCustomer : Option String) : HandlerResult :=
  let re := resolveSubEmail env subCustomer
  match re.1 with
  | none => ⟨200, RespBody.okTrue none, re.2.2⟩
  | some e =>
    let lk := lookupBcCustomerIdByEmail env.bc e
    let calls1 := re.2.2 ++ lk.2
    match lk.1 with
    | Except.error m => ⟨500, RespBody.okFalse m, calls1⟩
    | Except.ok none => ⟨200, RespBody.okTrue none, calls1⟩
    | Except.ok (some bcId) =>
      let sg := setBcCustomerGroup env.bc bcId NO_GROUP
      let calls2 := calls1 ++ sg.2
      match sg.1 with
      | Except.error m => ⟨500, RespBody.okFalse m, calls2⟩
      | Except.ok _ => ⟨200, RespBody.okTrue none, calls2⟩

/-- The payment-failed routing (lines 479-488): under the removal policy,
clear the group of an existing customer; otherwise fall through to the plain
200 acknowledgment (line 490). -/
def routePaymentFailed (env : HEnv) (email : Option String)
    (calls0 : List UpCall) : HandlerResult :=
  if REMOVE_ON_PAYMENT_FAILED then
    match email with
    | none => ⟨200, RespBody.okTrue none, calls0⟩
    | some e =>
      let lk := lookupBcCustomerIdByEmail env.bc e
      let calls1 := calls0 ++ lk.2
      match lk.1 with
      | Except.error m => ⟨500, RespBody.okFalse m, calls1⟩
      | Except.ok none => ⟨200, RespBody.okTrue none, calls1⟩
      | Except.ok (some bcId) =>
        let sg := setBcCustomerGroup env.bc bcId NO_GROUP
        let calls2 := calls1 ++ sg.2
        match sg.1 with
        | Except.error m => ⟨500, RespBody.okFalse m, calls2⟩
        | Except.ok _ => ⟨200, RespBody.okTrue none, calls2⟩
  else
    ⟨200, RespBody.okTrue none, calls0⟩

/-- Processing of a verified event (lines 386-495): dispatch on the event
type through normalization and routing; any unrecognized type is acknowledged
and ignored with no upstream calls. -/
def handleVerified (env : HEnv) (ev : EventObj) : HandlerResult :=
  if ev.type = "checkout.session.completed" then
    let n := normalizeCheckout env ev.sessionId
    routePurchase env n.1 n.2.1 n.2.2.1 n.2.2.2
  else if ev.type = "invoice.payment_succeeded" then
    let n := normalizeInvoice env ev.invoice
    routePurchase env n.1 n.2.1 n.2.2.1 n.2.2.2
  else if ev.type = "invoice.payment_failed" then
    let n := normalizeInvoice env ev.invoice
    routePaymentFailed env n.1 n.2.2.2
  else if ev.type = "customer.subscription.deleted" then
    routeSubDeleted env ev.subCustomer
  else
    ⟨200, RespBody.okTrue (some ev.type), []⟩

/-- Embedding of the webhook handler (stripe-webhook.js lines 368-495):
method check, signature verification over the raw body, then event
processing. -/
def handler (env : HEnv) (req : Req) : HandlerResult :=
  if req.method ≠ "POST" then
    ⟨405, RespBody.text "Method Not Allowed", []⟩
  else
    match constructEvent env.secret req.rawBody req.stripeSignature req.parsedEvent with
    | Except.error m => ⟨400, RespBody.text ("Webhook Error: " ++ m), []⟩
    | Except.ok ev => handleVerified env ev

/-- The email the handler resolves for each handled event kind (the value
whose absence makes the event a non-retryable skip). -/
def resolvedEmail (env : HEnv) (ev : EventObj) : Option String :=
  if ev.type = "checkout.session.completed" then
    (normalizeCheckout env ev.sessionId).1
  else if ev.type = "invoice.payment_succeeded" ∨ ev.type = "invoice.payment_failed" then
    (normalizeInvoice env ev.invoice).1
  else if ev.type = "customer.subscription.deleted" then
    (resolveSubEmail env ev.subCustomer).1
  else
    none

/-- Configuration of the media relay (stream.js): allowed origin, the HMAC
secret (TOKEN_SECRET with its default already resolved), and the maximum
window in minutes (STREAM_MAX_MIN with its default already parsed). -/
structure StreamCfg where
  siteOrigin : Option String
  tokenSecret : String
  maxMin : Int
deriving Repr, DecidableEq

/-- One relay request: method, Origin header (empty when absent), decoded
url parameter, parsed expiry, and the sig parameter as a string. -/
structure StreamReq where
  method : String
  origin : String
  u : String
  exp : Int
  sig : String
deriving Repr, DecidableEq

/-- Outcome of one relay request: whether the upstream fetch was attempted,
the HTTP status, and the error label of the JSON body (empty on success). -/
structure StreamResult where
  fetchedUpstream : Bool
  status : Nat
  label : String
deriving Repr, DecidableEq

/-- Embedding of the media-relay handler (stream.js lines 12-55).  Note line
30: an empty sig parameter is replaced by the signature the server itself
derives from its secret, so such requests pass the signature comparison. -/
def streamHandler (cfg : StreamCfg) (upstreamOk : Bool) (now : Int)
    (r : StreamReq) : StreamResult :=
  if r.method ≠ "GET" then ⟨false, 405, "method"⟩
  else
    let origin := cfg.siteOrigin.getD ""
    if origin ≠ "" ∧ r.origin ≠ "" ∧ r.origin ≠ origin then ⟨false, 403, "origin"⟩
    else if r.u = "" ∨ r.exp = 0 then ⟨false, 400, "params"⟩
    else
      let base := r.u ++ "|" ++ toString r.exp
      let sig := if r.sig = "" then hmacSha256 cfg.tokenSecret base else r.sig
      if now > r.exp then ⟨false, 403, "expired"⟩
      else if hmacSha256 cfg.tokenSecret base ≠ sig then ⟨false, 403, "sig"⟩
      else if r.exp - now > cfg.maxMin * 60 + 30 then ⟨false, 403, "window"⟩
      else if upstreamOk then ⟨true, 200, ""⟩
      else ⟨true, 502, "upstream"⟩

/-- Modelled from the spec: one DirectoryCustomer record of the commerce
platform (section 3 of the spec), the durable state the webhook reads and
updates through the BC API. -/
structure DirCustomer where
  id : Int
  email : String
  groupId : Int
deriving Repr, DecidableEq

/-- Modelled from the spec: the customer directory owned by the commerce
platform, in its listing order. -/
abbrev Directory := List DirCustomer

/-- First directory customer whose lowercased email equals the normalized
query, exactly the filter the lookup code applies to lookup responses. -/
def dirFind (d : Directory) (normalized : String) : Option DirCustomer :=
  List.find? (fun c => jsToLower c.email == normalized) d

/-- Denotation of lookupBcCustomerIdByEmail against a directory: normalize
the email, find the first match, return its id with the falsy-id collapse
(first.id || null) the code performs. -/
def dirLookup (d : Directory) (email : String) : Option Int :=
  match dirFind d (normEmail email) with
  | some c => if c.id = 0 then none else some c.id
  | none => none

/-- Denotation of a successful createBcCustomer: append a customer with the
normalized email; the group is set at create exactly when the optional group
is truthy, otherwise the platform default group 0 applies. -/
def dirCreate (d : Directory) (newId : Int) (email : String)
    (group : Option Int) : Directory :=
  d ++ [⟨newId, normEmail email, if groupTruthy group then group.getD 0 else 0⟩]

/-- Denotation of a successful setBcCustomerGroup: set the group field of
the customer with that id. -/
def dirSetGroup (d : Directory) (cid g : Int) : Directory :=
  List.map (fun c => if c.id = cid then ⟨c.id, c.email, g⟩ else c) d

/-- Denotation on the directory of one successfully processed purchase-type
event (lines 456-472): lookup by email; when absent, create with the group
applied at create when truthy; when present, apply the truthy target group. -/
def processPurchase (d : Directory) (freshId : Int) (email : String)
    (target : Option Int) : Directory :=
  match dirLookup d email with
  | some cid =>
    if groupTruthy target then dirSetGroup d cid (target.getD 0) else d
  | none =>
    let d1 := dirCreate d freshId email (idTruthy target)
    let appliedAtCreate := groupTruthy (idTruthy target)
    if groupTruthy target ∧ ¬ appliedAtCreate then dirSetGroup d1 freshId (target.getD 0)
    else d1

/-- Denotation on the directory of one successfully processed removal event
(subscription deleted / payment failed, lines 430-436 and 481-485): lookup by
email and clear the group of an existing customer with the sentinel. -/
def processRemoval (d : Directory) (email : String) : Directory :=
  match dirLookup d email with
  | some cid => dirSetGroup d cid NO_GROUP
  | none => d

/-- Does this call write customer group 0 (single patch, bulk put, or a
group applied at create)? -/
def writesGroupZero : UpCall → Bool
  | UpCall.bcPatch _ g => g == 0
  | UpCall.bcPut _ g => g == 0
  | UpCall.bcCreateV3 _ (some g) => g == 0
  | _ => false

/-- Did the adapter operation succeed (no exception propagated)? -/
def isOkE {α : Type} : Except String α → Bool
  | Except.ok _ => true
  | Except.error _ => false

/-- A BC environment whose v3 lookup fails with a plain server error (500,
not the recognized 404 try-v2 signal) while v2 answers normally. -/
def bcEnvV3Down : BcEnv :=
  ⟨500, none, 200, some [⟨42, "a@x.com"⟩], 500, none, 200, some 43, 200, "", 200⟩

/-- A BC environment where every modern call succeeds. -/
def bcEnvAllOk : BcEnv :=
  ⟨200, some [⟨42, "a@x.com"⟩], 200, some [⟨42, "a@x.com"⟩], 200, some 43, 200, some 43, 200, "", 200⟩

/-- A BC environment where the PATCH gets the 422 shape signal and the bulk
PUT then fails. -/
def bcEnvPatch422PutDown : BcEnv :=
  ⟨200, some [⟨42, "a@x.com"⟩], 200, some [⟨42, "a@x.com"⟩], 200, some 43, 200, some 43, 422, "customers must be an array", 500⟩

/-- A handler environment for concrete runs: an empty price map, a customer
resource with an email, and the all-succeeding BC backend. -/
def hEnvBase : HEnv :=
  ⟨"whsec", [("price_intro_m", 2)], none, some ⟨some "a@x.com", some "Ada Lovelace"⟩, bcEnvAllOk⟩

/-- A handler environment whose Stripe retrievals all fail and whose session
is absent, so no email can be resolved. -/
def hEnvNoEmail : HEnv :=
  ⟨"whsec", [("price_intro_m", 2)], none, none, bcEnvAllOk⟩

/-- An event object carrying every view, used to instantiate concrete runs. -/
def evOf (t : String) : EventObj :=
  ⟨t, "cs_1", ⟨[⟨some "price_intro_m", none⟩], some "a@x.com", none, some "cus_1"⟩, some "cus_1"⟩

/-- A request with the given signature header over the body bytes. -/
def reqOf (sig : Option String) (t : String) : Req :=
  ⟨"POST", sig, "rawbody", evOf t⟩

/-! Helper lemmas shared by the claim theorems. -/

theorem char_toLower_fix (n : Nat) (h1 : 65 ≤ n) (h2 : n ≤ 90) :
    (Char.ofNat (n + 32)).toLower = Char.ofNat (n + 32) := by
  interval_cases n <;> decide

theorem char_toLower_idem (c : Char) : c.toLower.toLower = c.toLower := by
  by_cases hc : 65 ≤ c.toNat ∧ c.toNat ≤ 90
  · have h1 : c.toLower = Char.ofNat (c.toNat + 32) := by
      unfold Char.toLower
      exact if_pos hc
    rw [h1]
    exact char_toLower_fix c.toNat hc.1 hc.2
  · have h1 : c.toLower = c := by
      unfold Char.toLower
      exact if_neg hc
    rw [h1, h1]

theorem jsToLower_idem (s : String) : jsToLower (jsToLower s) = jsToLower s := by
  unfold jsToLower
  cases s with
  | mk data =>
    simp only [List.map_map]
    congr 1
    induction data with
    | nil => rfl
    | cons a l ih => simp [Function.comp, char_toLower_idem, ih]

theorem jsToLower_normEmail (e : String) : jsToLower (normEmail e) = normEmail e := by
  unfold normEmail
  exact jsToLower_idem (jsTrim e)

theorem priceToGroupId_ne_zero (tbl : List (String × Int)) (pids : List String) (g : Int)
    (h : priceToGroupId tbl pids = some g) : g ≠ 0 := by
  induction pids with
  | nil => simp [priceToGroupId] at h
  | cons p rest ih =>
    by_cases hp : p = ""
    · simp [priceToGroupId, hp] at h
      exact ih h
    · rcases hl : List.lookup p tbl with _ | v
      · simp [priceToGroupId, hp, hl] at h
        exact ih h
      · by_cases hv : v = 0
        · simp [priceToGroupId, hp, hl, hv] at h
          exact ih h
        · simp [priceToGroupId, hp, hl, hv] at h
          exact h ▸ hv

/-! Claim theorems. -/

/-- C5: tier resolution is a deterministic pure function of the
price-identifier list (taken in discovery order) and the mapping table (all
of whose entries carry valid, nonzero group ids): the group id of the first
identifier present in the table is returned, the empty set and a set with no
identifier in the table resolve to null, and resolving the same set twice
yields the same result. -/
theorem c5_tier_resolution_first_match
    (tbl : List (String × Int)) (l₁ l₂ : List String) (p : String) (g : Int)
    (htbl : ∀ pr ∈ tbl, pr.2 ≠ 0)
    (hp : p ≠ "")
    (hskip : ∀ q ∈ l₁, List.lookup q tbl = none)
    (hg : List.lookup p tbl = some g) :
    priceToGroupId tbl (l₁ ++ p :: l₂) = some g
    ∧ priceToGroupId tbl [] = none
    ∧ (∀ pids : List String, (∀ q ∈ pids, List.lookup q tbl = none) →
        priceToGroupId tbl pids = none)
    ∧ (∀ pids : List String, priceToGroupId tbl pids = priceToGroupId tbl pids) := by
  have hnone : ∀ pids : List String, (∀ q ∈ pids, List.lookup q tbl = none) →
      priceToGroupId tbl pids = none := by
    intro pids hq
    induction pids with
    | nil => rfl
    | cons q rest ih =>
      have h1 := hq q (List.mem_cons_self q rest)
      have ih2 := ih (fun r hr => hq r (List.mem_cons_of_mem q hr))
      by_cases hq0 : q = ""
      · simp [priceToGroupId, hq0, ih2]
      · simp [priceToGroupId, hq0, h1, ih2]
  refine ⟨?_, rfl, hnone, fun _ => rfl⟩
  have hmem : (p, g) ∈ tbl := by
    rcases List.lookup_eq_some_iff.mp hg with ⟨t₁, t₂, ht, _⟩
    rw [ht]
    exact List.mem_append.mpr (Or.inr (List.mem_cons_self _ _))
  have hgz : g ≠ 0 := htbl (p, g) hmem
  induction l₁ with
  | nil => simp [priceToGroupId, hp, hg, hgz]
  | cons q rest ih =>
    have h1 := hskip q (List.mem_cons_self q rest)
    have ih2 := ih (fun r hr => hskip r (List.mem_cons_of_mem q hr))
    by_cases hq0 : q = ""
    · simpa [priceToGroupId, hq0] using ih2
    · simpa [priceToGroupId, hq0, h1] using ih2

/-- C5 witness: a concrete resolution through a one-entry table. -/
theorem c5_witness :
    priceToGroupId [("price_intro_m", 2)] (["px"] ++ "price_intro_m" :: []) = some 2
    ∧ priceToGroupId [("price_intro_m", 2)] [] = none
    ∧ (∀ pids : List String,
        (∀ q ∈ pids, List.lookup q ([("price_intro_m", 2)] : List (String × Int)) = none) →
        priceToGroupId [("price_intro_m", 2)] pids = none)
    ∧ (∀ pids : List String,
        priceToGroupId [("price_intro_m", 2)] pids = priceToGroupId [("price_intro_m", 2)] pids) :=
  c5_tier_resolution_first_match [("price_intro_m", 2)] ["px"] [] "price_intro_m" 2
    (by decide) (by decide) (by decide) (by decide)

/-- C9: a verified event of any unrecognized kind is acknowledged with
status 200 and a body of ok true plus the ignored kind, with an empty
upstream-call trace, so no payment-provider retrieval, no commerce-platform
call, and no external state change happens. -/
theorem c9_unrecognized_kind_ignored (env : HEnv) (ev : EventObj)
    (h1 : ev.type ≠ "checkout.session.completed")
    (h2 : ev.type ≠ "invoice.payment_succeeded")
    (h3 : ev.type ≠ "invoice.payment_failed")
    (h4 : ev.type ≠ "customer.subscription.deleted") :
    handleVerified env ev = ⟨200, RespBody.okTrue (some ev.type), []⟩ := by
  unfold handleVerified
  simp [h1, h2, h3, h4]

/-- C9 witness: a concrete unrecognized event kind. -/
theorem c9_witness :
    handleVerified hEnvBase (evOf "charge.refunded")
      = ⟨200, RespBody.okTrue (some (evOf "charge.refunded").type), []⟩ :=
  c9_unrecognized_kind_ignored hEnvBase (evOf "charge.refunded")
    (by decide) (by decide) (by decide) (by decide)

/-- C6: the group reconciler tries the precise single-customer PATCH first; a
successful PATCH response ends the operation with exactly the one call; on a
PATCH failure carrying the shape-mismatch signal the bulk PUT is attempted
before any error is surfaced; and a failure of the bulk PUT is fatal (the
operation returns an error, which the orchestrator turns into HTTP 500). -/
theorem c6_set_group_patch_then_put (env : BcEnv) (cid g : Int) :
    (httpOk env.patchStatus = true →
      setBcCustomerGroup env cid g = (Except.ok (), [UpCall.bcPatch cid g]))
    ∧ (httpOk env.patchStatus = false → patchMismatchSignal env = true →
      UpCall.bcPut cid g ∈ (setBcCustomerGroup env cid g).2)
    ∧ (httpOk env.patchStatus = false → httpOk env.putStatus = false →
      isOkE (setBcCustomerGroup env cid g).1 = false) := by
  unfold setBcCustomerGroup
  refine ⟨fun h => by simp [h], fun h _ => ?_, fun h h2 => by simp [h, h2, isOkE]⟩
  cases hput : httpOk env.putStatus <;> simp [h, hput]

/-- C6 witness: PATCH rejected with the 422 array signal, bulk PUT attempted
and failing, surfaced as an error. -/
theorem c6_witness :
    (httpOk bcEnvPatch422PutDown.patchStatus = true →
      setBcCustomerGroup bcEnvPatch422PutDown 42 2 = (Except.ok (), [UpCall.bcPatch 42 2]))
    ∧ (httpOk bcEnvPatch422PutDown.patchStatus = false →
        patchMismatchSignal bcEnvPatch422PutDown = true →
      UpCall.bcPut 42 2 ∈ (setBcCustomerGroup bcEnvPatch422PutDown 42 2).2)
    ∧ (httpOk bcEnvPatch422PutDown.patchStatus = false →
        httpOk bcEnvPatch422PutDown.putStatus = false →
      isOkE (setBcCustomerGroup bcEnvPatch422PutDown 42 2).1 = false) :=
  c6_set_group_patch_then_put bcEnvPatch422PutDown 42 2

/-- C2 counterexample: the modern v3 lookup fails with a plain server error
(500, not the recognized 404 endpoint-not-present signal), yet the legacy v2
call IS attempted and the operation succeeds from the v2 response instead of
aborting the event. -/
theorem c2_counterexample :
    httpOk bcEnvV3Down.v3LookupStatus = false
    ∧ bcEnvV3Down.v3LookupStatus ≠ 404
    ∧ (lookupBcCustomerIdByEmail bcEnvV3Down "a@x.com").1 = Except.ok (some 42)
    ∧ UpCall.bcLookupV2 "a@x.com" ∈ (lookupBcCustomerIdByEmail bcEnvV3Down "a@x.com").2 := by
  decide

/-- C2 amended: every v3 lookup or create failure, recognized
version-mismatch signal or not, triggers the legacy v2 fallback; the
operation aborts the event (HTTP 500) exactly when the v2 fallback itself
fails (for create, also when the v2 response carries no usable id). -/
theorem c2_amended_fallback_always (env : BcEnv)
    (email firstName lastName : String) (gid : Option Int)
    (hl : httpOk env.v3LookupStatus = false)
    (hc : httpOk env.v3CreateStatus = false) :
    (UpCall.bcLookupV2 (normEmail email) ∈ (lookupBcCustomerIdByEmail env email).2
      ∧ isOkE (lookupBcCustomerIdByEmail env email).1 = httpOk env.v2LookupStatus)
    ∧ (UpCall.bcCreateV2 (normEmail email)
          ∈ (createBcCustomer env email firstName lastName gid).2
      ∧ isOkE (createBcCustomer env email firstName lastName gid).1
          = (httpOk env.v2CreateStatus && (idTruthy env.v2CreateId).isSome)) := by
  constructor
  · unfold lookupBcCustomerIdByEmail
    cases h2 : httpOk env.v2LookupStatus <;> simp [hl, h2, isOkE]
  · unfold createBcCustomer createBcCustomerV2
    cases h2 : httpOk env.v2CreateStatus <;>
      rcases h4 : idTruthy env.v2CreateId with _ | j <;>
        simp [hl, hc, h2, h4, isOkE]

/-- C2 amended witness: concrete v3-down environment, v2 serving both
operations. -/
theorem c2_witness :
    (UpCall.bcLookupV2 (normEmail "a@x.com") ∈ (lookupBcCustomerIdByEmail bcEnvV3Down "a@x.com").2
      ∧ isOkE (lookupBcCustomerIdByEmail bcEnvV3Down "a@x.com").1
          = httpOk bcEnvV3Down.v2LookupStatus)
    ∧ (UpCall.bcCreateV2 (normEmail "a@x.com")
          ∈ (createBcCustomer bcEnvV3Down "a@x.com" "Ada" "Lovelace" (some 2)).2
      ∧ isOkE (createBcCustomer bcEnvV3Down "a@x.com" "Ada" "Lovelace" (some 2)).1
          = (httpOk bcEnvV3Down.v2CreateStatus && (idTruthy bcEnvV3Down.v2CreateId).isSome)) :=
  c2_amended_fallback_always bcEnvV3Down "a@x.com" "Ada" "Lovelace" (some 2)
    (by decide) (by decide)

/-! Trace lemmas used for the frame claims. -/

theorem isBcCall_false_no_write (c : UpCall) (h : isBcCall c = false) :
    writesGroupZero c = false := by
  cases c <;> simp_all [isBcCall, writesGroupZero]

theorem lookup_calls_no_write (env : BcEnv) (e : String) :
    ∀ c ∈ (lookupBcCustomerIdByEmail env e).2, writesGroupZero c = false := by
  unfold lookupBcCustomerIdByEmail
  cases h1 : httpOk env.v3LookupStatus <;> cases h2 : httpOk env.v2LookupStatus <;>
    simp [h1, h2, writesGroupZero]

theorem create_calls_no_write (env : BcEnv) (e f l : String) (gid : Option Int) :
    ∀ c ∈ (createBcCustomer env e f l gid).2, writesGroupZero c = false := by
  have hpayload : ∀ g, (if groupTruthy gid then gid else none) = some g → (g == 0) = false := by
    rcases gid with _ | g
    · intro x h; simp [groupTruthy] at h
    · by_cases hg : g = 0
      · intro x h; simp [groupTruthy, hg] at h
      · intro x h
        simp [groupTruthy, hg] at h
        simp [← h, hg]
  unfold createBcCustomer createBcCustomerV2
  rcases h5 : (if groupTruthy gid then gid else none) with _ | gz
  · cases h1 : httpOk env.v3CreateStatus <;>
      cases h2 : httpOk env.v2CreateStatus <;>
        rcases h3 : idTruthy env.v3CreateId with _ | i <;>
          rcases h4 : idTruthy env.v2CreateId with _ | j <;>
            simp [h1, h2, h3, h4, h5, writesGroupZero]
  · have hgz := hpayload gz h5
    cases h1 : httpOk env.v3CreateStatus <;>
      cases h2 : httpOk env.v2CreateStatus <;>
        rcases h3 : idTruthy env.v3CreateId with _ | i <;>
          rcases h4 : idTruthy env.v2CreateId with _ | j <;>
            simp [h1, h2, h3, h4, h5, writesGroupZero, hgz]

theorem set_calls_no_write (env : BcEnv) (cid g : Int) (hg : g ≠ 0) :
    ∀ c ∈ (setBcCustomerGroup env cid g).2, writesGroupZero c = false := by
  unfold setBcCustomerGroup
  cases h1 : httpOk env.patchStatus <;> cases h2 : httpOk env.putStatus <;>
    simp [h1, h2, writesGroupZero, beq_eq_false_iff_ne, hg]

theorem applyIfTarget_calls (env : HEnv) (bcId : Int) (target : Option Int)
    (b : Bool) (calls : List UpCall) :
    (applyIfTarget env bcId target b calls).calls = calls
    ∨ ((applyIfTarget env bcId target b calls).calls
        = calls ++ (setBcCustomerGroup env.bc bcId (target.getD 0)).2
       ∧ groupTruthy target = true) := by
  unfold applyIfTarget
  by_cases hcond : groupTruthy target = true ∧ b = false
  · right
    refine ⟨?_, hcond.1⟩
    rcases hres : (setBcCustomerGroup env.bc bcId (target.getD 0)).1 with m | u <;>
      simp [hcond, hres]
  · left
    simp [hcond]

theorem applyIfTarget_calls_no_write (env : HEnv) (bcId : Int) (target : Option Int)
    (b : Bool) (calls : List UpCall)
    (h0 : ∀ c ∈ calls, writesGroupZero c = false) :
    ∀ c ∈ (applyIfTarget env bcId target b calls).calls, writesGroupZero c = false := by
  intro c hcm
  rcases applyIfTarget_calls env bcId target b calls with h | ⟨h, hg⟩
  · exact h0 c (h ▸ hcm)
  · have hgz : target.getD 0 ≠ 0 := by
      rcases target with _ | g
      · simp [groupTruthy] at hg
      · simp [groupTruthy] at hg
        simpa using hg
    rw [h] at hcm
    rcases List.mem_append.mp hcm with h2 | h2
    · exact h0 c h2
    · exact set_calls_no_write env.bc bcId _ hgz c h2

theorem routePurchase_calls_no_write (env : HEnv) (email : Option String)
    (name : String) (pids : List String) (calls0 : List UpCall)
    (h0 : ∀ c ∈ calls0, writesGroupZero c = false) :
    ∀ c ∈ (routePurchase env email name pids calls0).calls, writesGroupZero c = false := by
  unfold routePurchase
  rcases email with _ | e
  · simpa using h0
  · have hlk := lookup_calls_no_write env.bc e
    have h1 : ∀ c ∈ calls0 ++ (lookupBcCustomerIdByEmail env.bc e).2,
        writesGroupZero c = false := by
      intro c hc
      rcases List.mem_append.mp hc with h | h
      · exact h0 c h
      · exact hlk c h
    rcases hres : (lookupBcCustomerIdByEmail env.bc e).1 with m | idOpt
    · simpa [hres] using h1
    · rcases idOpt with _ | bcId
      · -- create path
        have hcr := create_calls_no_write env.bc e (splitName name).1 (splitName name).2
          (idTruthy (priceToGroupId env.priceMap pids))
        have h2 : ∀ c ∈ (calls0 ++ (lookupBcCustomerIdByEmail env.bc e).2)
            ++ (createBcCustomer env.bc e (splitName name).1 (splitName name).2
                (idTruthy (priceToGroupId env.priceMap pids))).2,
            writesGroupZero c = false := by
          intro c hc
          rcases List.mem_append.mp hc with h | h
          · exact h1 c h
          · exact hcr c h
        rcases hcres : (createBcCustomer env.bc e (splitName name).1 (splitName name).2
            (idTruthy (priceToGroupId env.priceMap pids))).1 with m | created
        · simpa [hres, hcres] using h2
        · simp only [hres, hcres]
          exact applyIfTarget_calls_no_write env created.id _ created.groupAppliedAtCreate _ h2
      · -- found path
        simp only [hres]
        exact applyIfTarget_calls_no_write env bcId _ false _ h1

theorem normalizeCheckout_calls_stripe (env : HEnv) (sid : String) :
    ∀ c ∈ (normalizeCheckout env sid).2.2.2, isBcCall c = false := by
  unfold normalizeCheckout
  rcases h : env.retrieveSession with _ | s
  · simp [isBcCall]
  · by_cases hcond : truthyOrNone (jsOrS s.detailsEmail s.customerEmail) = none
        ∧ strTruthy s.customer = true
    · rcases h2 : env.retrieveCustomer with _ | c <;>
        simp [Option.isNone_iff_eq_none, hcond, h2, isBcCall]
    · simp [Option.isNone_iff_eq_none, hcond, isBcCall]

theorem normalizeInvoice_calls_stripe (env : HEnv) (inv : Invoice) :
    ∀ c ∈ (normalizeInvoice env inv).2.2.2, isBcCall c = false := by
  unfold normalizeInvoice
  by_cases hcond : strTruthy inv.customer = true
  · rcases h2 : env.retrieveCustomer with _ | c <;> simp [hcond, h2, isBcCall]
  · simp [hcond]

theorem resolveSubEmail_calls_stripe (env : HEnv) (sc : Option String) :
    ∀ c ∈ (resolveSubEmail env sc).2.2, isBcCall c = false := by
  unfold resolveSubEmail
  rcases sc with _ | cid
  · simp
  · rcases h2 : env.retrieveCustomer with _ | c <;> simp [h2, isBcCall]

/-- C10: a mapping entry with a falsy group id behaves as if the price were
unmapped (the resolver skips it), the resolver only ever returns a nonzero
group id, and on the purchase paths (checkout completed and invoice paid) no
outbound call ever writes group 0 — at create, by PATCH, or by bulk PUT — so
group 0 can only be written by the cancellation and payment-failure paths. -/
theorem c10_zero_group_only_removal_paths (env : HEnv) (ev : EventObj)
    (ht : ev.type = "checkout.session.completed" ∨ ev.type = "invoice.payment_succeeded") :
    (∀ pids g, priceToGroupId env.priceMap pids = some g → g ≠ 0)
    ∧ (∀ p rest, List.lookup p env.priceMap = some 0 →
        priceToGroupId env.priceMap (p :: rest) = priceToGroupId env.priceMap rest)
    ∧ (∀ c ∈ (handleVerified env ev).calls, writesGroupZero c = false) := by
  refine ⟨fun pids g h => priceToGroupId_ne_zero _ _ _ h, ?_, ?_⟩
  · intro p rest h
    by_cases hp : p = ""
    · simp [priceToGroupId, hp]
    · simp [priceToGroupId, hp, h]
  · rcases ht with ht | ht
    · have hn := normalizeCheckout_calls_stripe env ev.sessionId
      unfold handleVerified
      simp only [ht, if_true]
      exact routePurchase_calls_no_write env _ _ _ _
        (fun c hc => isBcCall_false_no_write c (hn c hc))
    · have hn := normalizeInvoice_calls_stripe env ev.invoice
      unfold handleVerified
      have hne : ev.type ≠ "checkout.session.completed" := by rw [ht]; decide
      simp only [ht, hne, if_false, if_true]
      exact routePurchase_calls_no_write env _ _ _ _
        (fun c hc => isBcCall_false_no_write c (hn c hc))

/-- C10 witness: a concrete purchased-tier run. -/
theorem c10_witness :
    (∀ pids g, priceToGroupId hEnvBase.priceMap pids = some g → g ≠ 0)
    ∧ (∀ p rest, List.lookup p hEnvBase.priceMap = some 0 →
        priceToGroupId hEnvBase.priceMap (p :: rest) = priceToGroupId hEnvBase.priceMap rest)
    ∧ (∀ c ∈ (handleVerified hEnvBase (evOf "invoice.payment_succeeded")).calls,
        writesGroupZero c = false) :=
  c10_zero_group_only_removal_paths hEnvBase (evOf "invoice.payment_succeeded")
    (Or.inr (by decide))

/-- C3: an inbound POST whose signature header is missing or does not equal
the signature recomputed over the raw request bytes with the shared secret is
answered with HTTP 400 and an empty upstream-call trace: no event
normalization, no payment-provider retrieval and no commerce-platform call
happens. -/
theorem c3_bad_signature_no_calls (env : HEnv) (req : Req)
    (hm : req.method = "POST")
    (hs : req.stripeSignature ≠ some (hmacSha256 env.secret req.rawBody)) :
    (handler env req).status = 400 ∧ (handler env req).calls = [] := by
  unfold handler constructEvent
  rcases h : req.stripeSignature with _ | s
  · simp [hm, h]
  · have hne : ¬ s = hmacSha256 env.secret req.rawBody := fun he => hs (by rw [h, he])
    simp [hm, h, hne]

/-- C3 witness: a concrete mismatched signature header. -/
theorem c3_witness :
    (handler hEnvBase (reqOf (some "bad") "checkout.session.completed")).status = 400
    ∧ (handler hEnvBase (reqOf (some "bad") "checkout.session.completed")).calls = [] :=
  c3_bad_signature_no_calls hEnvBase (reqOf (some "bad") "checkout.session.completed")
    (by decide) (by decide)

theorem resolvedEmail_checkout (env : HEnv) (ev : EventObj)
    (ht : ev.type = "checkout.session.completed") :
    resolvedEmail env ev = (normalizeCheckout env ev.sessionId).1 := by
  unfold resolvedEmail
  rw [ht]
  simp

theorem resolvedEmail_invSucc (env : HEnv) (ev : EventObj)
    (ht : ev.type = "invoice.payment_succeeded") :
    resolvedEmail env ev = (normalizeInvoice env ev.invoice).1 := by
  unfold resolvedEmail
  rw [ht]
  simp

theorem resolvedEmail_invFail (env : HEnv) (ev : EventObj)
    (ht : ev.type = "invoice.payment_failed") :
    resolvedEmail env ev = (normalizeInvoice env ev.invoice).1 := by
  unfold resolvedEmail
  rw [ht]
  simp

theorem resolvedEmail_sub (env : HEnv) (ev : EventObj)
    (ht : ev.type = "customer.subscription.deleted") :
    resolvedEmail env ev = (resolveSubEmail env ev.subCustomer).1 := by
  unfold resolvedEmail
  rw [ht]
  simp

theorem handleVerified_checkout (env : HEnv) (ev : EventObj)
    (ht : ev.type = "checkout.session.completed") :
    handleVerified env ev
      = routePurchase env (normalizeCheckout env ev.sessionId).1
          (normalizeCheckout env ev.sessionId).2.1
          (normalizeCheckout env ev.sessionId).2.2.1
          (normalizeCheckout env ev.sessionId).2.2.2 := by
  unfold handleVerified
  rw [ht]
  simp

theorem handleVerified_invSucc (env : HEnv) (ev : EventObj)
    (ht : ev.type = "invoice.payment_succeeded") :
    handleVerified env ev
      = routePurchase env (normalizeInvoice env ev.invoice).1
          (normalizeInvoice env ev.invoice).2.1
          (normalizeInvoice env ev.invoice).2.2.1
          (normalizeInvoice env ev.invoice).2.2.2 := by
  unfold handleVerified
  rw [ht]
  simp

theorem handleVerified_invFail (env : HEnv) (ev : EventObj)
    (ht : ev.type = "invoice.payment_failed") :
    handleVerified env ev
      = routePaymentFailed env (normalizeInvoice env ev.invoice).1
          (normalizeInvoice env ev.invoice).2.2.2 := by
  unfold handleVerified
  rw [ht]
  simp

theorem handleVerified_sub (env : HEnv) (ev : EventObj)
    (ht : ev.type = "customer.subscription.deleted") :
    handleVerified env ev = routeSubDeleted env ev.subCustomer := by
  unfold handleVerified
  rw [ht]
  simp

/-- C7: on every handled event kind, when no purchaser email can be resolved
(event fields and the customer-resource fallback all yield nothing) the
handler acknowledges with HTTP 200 and a plain ok body — a non-retryable
skip, not a failure — and performs no commerce-platform call at all (no
lookup, no create, no group update). -/
theorem c7_missing_email_is_skip (env : HEnv) (ev : EventObj)
    (hk : ev.type = "checkout.session.completed" ∨ ev.type = "invoice.payment_succeeded"
        ∨ ev.type = "invoice.payment_failed" ∨ ev.type = "customer.subscription.deleted")
    (he : resolvedEmail env ev = none) :
    (handleVerified env ev).status = 200
    ∧ (handleVerified env ev).body = RespBody.okTrue none
    ∧ ∀ c ∈ (handleVerified env ev).calls, isBcCall c = false := by
  rcases hk with ht | ht | ht | ht
  · have hn := normalizeCheckout_calls_stripe env ev.sessionId
    rw [resolvedEmail_checkout env ev ht] at he
    rw [handleVerified_checkout env ev ht, he]
    exact ⟨rfl, rfl, hn⟩
  · have hn := normalizeInvoice_calls_stripe env ev.invoice
    rw [resolvedEmail_invSucc env ev ht] at he
    rw [handleVerified_invSucc env ev ht, he]
    exact ⟨rfl, rfl, hn⟩
  · have hn := normalizeInvoice_calls_stripe env ev.invoice
    rw [resolvedEmail_invFail env ev ht] at he
    rw [handleVerified_invFail env ev ht, he]
    exact ⟨rfl, rfl, hn⟩
  · have hn := resolveSubEmail_calls_stripe env ev.subCustomer
    rw [resolvedEmail_sub env ev ht] at he
    rw [handleVerified_sub env ev ht]
    simp only [routeSubDeleted, he]
    exact ⟨by simp, by simp, by simpa using hn⟩

/-- C7 witness: a subscription-ended event whose customer retrieval fails, so
no email resolves. -/
theorem c7_witness :
    (handleVerified hEnvNoEmail (evOf "customer.subscription.deleted")).status = 200
    ∧ (handleVerified hEnvNoEmail (evOf "customer.subscription.deleted")).body
        = RespBody.okTrue none
    ∧ ∀ c ∈ (handleVerified hEnvNoEmail (evOf "customer.subscription.deleted")).calls,
        isBcCall c = false :=
  c7_missing_email_is_skip hEnvNoEmail (evOf "customer.subscription.deleted")
    (Or.inr (Or.inr (Or.inr (by decide)))) (by decide)

/-- C8: a subscription-ended event whose customer email resolves and matches
an existing directory customer makes the handler clear that group by calling
the same set-group operation used for assignment with the sentinel NO_GROUP
value 0 (there is no separate delete call), and respond HTTP 200. -/
theorem c8_subscription_ended_clears_group (env : HEnv) (ev : EventObj)
    (e : String) (bcId : Int)
    (ht : ev.type = "customer.subscription.deleted")
    (he : resolvedEmail env ev = some e)
    (hl : (lookupBcCustomerIdByEmail env.bc e).1 = Except.ok (some bcId))
    (hp : httpOk env.bc.patchStatus = true) :
    (handleVerified env ev).status = 200
    ∧ (handleVerified env ev).body = RespBody.okTrue none
    ∧ UpCall.bcPatch bcId NO_GROUP ∈ (handleVerified env ev).calls := by
  have hset : setBcCustomerGroup env.bc bcId NO_GROUP
      = (Except.ok (), [UpCall.bcPatch bcId NO_GROUP]) := by
    unfold setBcCustomerGroup
    simp [hp]
  rw [resolvedEmail_sub env ev ht] at he
  rw [handleVerified_sub env ev ht]
  simp only [routeSubDeleted, he, hl, hset]
  exact ⟨by simp, by simp, by simp⟩

/-- C8 witness: a concrete subscription-ended event against an existing
customer. -/
theorem c8_witness :
    (handleVerified hEnvBase (evOf "customer.subscription.deleted")).status = 200
    ∧ (handleVerified hEnvBase (evOf "customer.subscription.deleted")).body
        = RespBody.okTrue none
    ∧ UpCall.bcPatch 42 NO_GROUP
        ∈ (handleVerified hEnvBase (evOf "customer.subscription.deleted")).calls :=
  c8_subscription_ended_clears_group hEnvBase (evOf "customer.subscription.deleted")
    "a@x.com" 42 (by decide) (by decide) (by decide) (by decide)

/-- C4 counterexample: a GET request carrying an EMPTY sig parameter is
served — the upstream fetch happens — even though the signature it carries
does not equal the HMAC over url|expiry derived from the secret: stream.js
line 30 derives the missing signature server-side before comparing, so the
claimed gate (fetch only if the request signature equals the HMAC, otherwise
403) is violated at this input. -/
theorem c4_counterexample :
    (streamHandler ⟨none, "secret", 70⟩ true 0
        ⟨"GET", "", "http://u", 10, ""⟩).fetchedUpstream = true
    ∧ "" ≠ hmacSha256 "secret" ("http://u" ++ "|" ++ toString (10 : Int)) := by
  decide

/-- C4 amended: for every relay request carrying a NONEMPTY signature, the
upstream fetch happens only if the request is unexpired and its signature
equals the HMAC over url|expiry computed from the secret; and a well-formed
GET (acceptable origin, nonempty url, nonzero expiry) failing that condition
is rejected with 403 and no fetch.  A request with an empty signature is
instead completed server-side from the secret and can be served. -/
theorem c4_amended_sig_gate (cfg : StreamCfg) (up : Bool) (now : Int) (r : StreamReq)
    (hsig : r.sig ≠ "") :
    ((streamHandler cfg up now r).fetchedUpstream = true →
      now ≤ r.exp ∧ r.sig = hmacSha256 cfg.tokenSecret (r.u ++ "|" ++ toString r.exp))
    ∧ (r.method = "GET" →
       ¬ (cfg.siteOrigin.getD "" ≠ "" ∧ r.origin ≠ "" ∧ r.origin ≠ cfg.siteOrigin.getD "") →
       r.u ≠ "" → r.exp ≠ 0 →
       ¬ (now ≤ r.exp ∧ r.sig = hmacSha256 cfg.tokenSecret (r.u ++ "|" ++ toString r.exp)) →
       (streamHandler cfg up now r).status = 403
         ∧ (streamHandler cfg up now r).fetchedUpstream = false) := by
  unfold streamHandler
  simp only [if_neg hsig]
  split_ifs with h1 h2 h3 h4 h5 h6 h7 <;>
    refine ⟨fun hf => ?_, fun hm ho hu hex hnot => ?_⟩ <;>
      simp_all

/-- C4 amended witness: a concrete nonempty-signature request. -/
theorem c4_witness :
    ((streamHandler ⟨none, "secret", 70⟩ true 0
        ⟨"GET", "", "http://u", 10, "x"⟩).fetchedUpstream = true →
      (0 : Int) ≤ (⟨"GET", "", "http://u", 10, "x"⟩ : StreamReq).exp
        ∧ (⟨"GET", "", "http://u", 10, "x"⟩ : StreamReq).sig
            = hmacSha256 (⟨none, "secret", 70⟩ : StreamCfg).tokenSecret
                ((⟨"GET", "", "http://u", 10, "x"⟩ : StreamReq).u ++ "|"
                  ++ toString (⟨"GET", "", "http://u", 10, "x"⟩ : StreamReq).exp))
    ∧ ((⟨"GET", "", "http://u", 10, "x"⟩ : StreamReq).method = "GET" →
       ¬ ((⟨none, "secret", 70⟩ : StreamCfg).siteOrigin.getD "" ≠ ""
          ∧ (⟨"GET", "", "http://u", 10, "x"⟩ : StreamReq).origin ≠ ""
          ∧ (⟨"GET", "", "http://u", 10, "x"⟩ : StreamReq).origin
              ≠ (⟨none, "secret", 70⟩ : StreamCfg).siteOrigin.getD "") →
       (⟨"GET", "", "http://u", 10, "x"⟩ : StreamReq).u ≠ "" →
       (⟨"GET", "", "http://u", 10, "x"⟩ : StreamReq).exp ≠ 0 →
       ¬ ((0 : Int) ≤ (⟨"GET", "", "http://u", 10, "x"⟩ : StreamReq).exp
          ∧ (⟨"GET", "", "http://u", 10, "x"⟩ : StreamReq).sig
              = hmacSha256 (⟨none, "secret", 70⟩ : StreamCfg).tokenSecret
                  ((⟨"GET", "", "http://u", 10, "x"⟩ : StreamReq).u ++ "|"
                    ++ toString (⟨"GET", "", "http://u", 10, "x"⟩ : StreamReq).exp)) →
       (streamHandler ⟨none, "secret", 70⟩ true 0
           ⟨"GET", "", "http://u", 10, "x"⟩).status = 403
         ∧ (streamHandler ⟨none, "secret", 70⟩ true 0
             ⟨"GET", "", "http://u", 10, "x"⟩).fetchedUpstream = false) :=
  c4_amended_sig_gate ⟨none, "secret", 70⟩ true 0 ⟨"GET", "", "http://u", 10, "x"⟩
    (by decide)

/-! Directory lemmas for the idempotence claim. -/

theorem groupTruthy_idTruthy (t : Option Int) : groupTruthy (idTruthy t) = groupTruthy t := by
  rcases t with _ | g
  · rfl
  · by_cases hg : g = 0 <;> simp [idTruthy, groupTruthy, hg]

theorem dirSetGroup_append (d1 d2 : Directory) (cid g : Int) :
    dirSetGroup (d1 ++ d2) cid g = dirSetGroup d1 cid g ++ dirSetGroup d2 cid g := by
  unfold dirSetGroup
  exact List.map_append _ _ _

theorem dirSetGroup_of_not_mem (d : Directory) (cid g : Int)
    (h : ∀ c ∈ d, c.id ≠ cid) : dirSetGroup d cid g = d := by
  unfold dirSetGroup
  have h2 : ∀ c ∈ d,
      (fun c : DirCustomer => if c.id = cid then (⟨c.id, c.email, g⟩ : DirCustomer) else c) c
        = id c := fun c hc => by simp [h c hc]
  rw [List.map_congr_left h2, List.map_id]

theorem dirSetGroup_idem (d : Directory) (cid g : Int) :
    dirSetGroup (dirSetGroup d cid g) cid g = dirSetGroup d cid g := by
  unfold dirSetGroup
  rw [List.map_map]
  apply List.map_congr_left
  intro c hc
  by_cases h : c.id = cid <;> simp [Function.comp, h]

theorem dirFind_setGroup (d : Directory) (cid g : Int) (n : String) :
    dirFind (dirSetGroup d cid g) n
      = (dirFind d n).map (fun c => if c.id = cid then ⟨c.id, c.email, g⟩ else c) := by
  unfold dirFind dirSetGroup
  rw [List.find?_map]
  have hpf : ((fun c : DirCustomer => jsToLower c.email == n) ∘ fun c =>
      if c.id = cid then (⟨c.id, c.email, g⟩ : DirCustomer) else c)
      = fun c : DirCustomer => jsToLower c.email == n := by
    funext c
    by_cases h : c.id = cid <;> simp [Function.comp, h]
  rw [hpf]

theorem dirLookup_setGroup (d : Directory) (cid g : Int) (e : String) :
    dirLookup (dirSetGroup d cid g) e = dirLookup d e := by
  unfold dirLookup
  rw [dirFind_setGroup]
  rcases hf : dirFind d (normEmail e) with _ | c
  · rfl
  · by_cases h : c.id = cid <;> simp [h]

theorem dirLookup_create_self (d : Directory) (idn : Int) (e : String) (grp : Option Int)
    (hfind : dirFind d (normEmail e) = none) (hid : idn ≠ 0) :
    dirLookup (dirCreate d idn e grp) e = some idn := by
  unfold dirLookup dirCreate
  unfold dirFind at hfind ⊢
  rw [List.find?_append, hfind]
  simp [List.find?, jsToLower_normEmail, hid]

theorem processRemoval_idem (d : Directory) (email : String) :
    processRemoval (processRemoval d email) email = processRemoval d email := by
  unfold processRemoval
  rcases hl : dirLookup d email with _ | cid
  · simp only [hl]
  · simp only [hl, dirLookup_setGroup]
    exact dirSetGroup_idem d cid NO_GROUP

theorem processPurchase_idem (d : Directory) (id1 id2 : Int) (email : String)
    (target : Option Int)
    (hids : ∀ c ∈ d, c.id ≠ 0)
    (h1 : id1 ≠ 0)
    (hfresh : ∀ c ∈ d, c.id ≠ id1) :
    processPurchase (processPurchase d id1 email target) id2 email target
      = processPurchase d id1 email target := by
  have hgt := groupTruthy_idTruthy target
  unfold processPurchase
  rcases hl : dirLookup d email with _ | cid
  · have hfind : dirFind d (normEmail email) = none := by
      unfold dirLookup at hl
      rcases hf : dirFind d (normEmail email) with _ | c
      · rfl
      · rw [hf] at hl
        have hc : c ∈ d := List.mem_of_find?_eq_some hf
        simp [hids c hc] at hl
    have hcond : ¬(groupTruthy target = true ∧ ¬groupTruthy target = true) :=
      fun h => h.2 h.1
    simp only [hl]
    simp only [hgt]
    simp only [if_neg hcond]
    rw [dirLookup_create_self d id1 email (idTruthy target) hfind h1]
    by_cases hg : groupTruthy target = true
    · rcases target with _ | g0
      · simp [groupTruthy] at hg
      · have hg0 : g0 ≠ 0 := by simpa [groupTruthy] using hg
        simp only [hg, if_true]
        unfold dirCreate
        rw [dirSetGroup_append d _ id1]
        rw [dirSetGroup_of_not_mem d id1 _ hfresh]
        simp [dirSetGroup, idTruthy, groupTruthy, hg0]
    · simp [hg]
  · by_cases hg : groupTruthy target = true
    · simp [hl, hg, dirLookup_setGroup, dirSetGroup_idem]
    · simp [hl, hg]

/-- C1: replaying one verified event leaves the directory in the same final
state as playing it once: the purchase upsert keyed by normalized email never
creates a second customer for the same email, the removal path is likewise
repeatable, and re-applying the same group id to the same customer yields the
same record.  Stated for directories whose customer ids are valid (nonzero)
and a create id fresh for the directory, as the platform guarantees. -/
theorem c1_idempotent_event_processing (d : Directory) (id1 id2 : Int)
    (email : String) (target : Option Int)
    (hids : ∀ c ∈ d, c.id ≠ 0)
    (h1 : id1 ≠ 0)
    (hfresh : ∀ c ∈ d, c.id ≠ id1) :
    processPurchase (processPurchase d id1 email target) id2 email target
      = processPurchase d id1 email target
    ∧ processRemoval (processRemoval d email) email = processRemoval d email
    ∧ (∀ cid g, dirSetGroup (dirSetGroup d cid g) cid g = dirSetGroup d cid g) :=
  ⟨processPurchase_idem d id1 id2 email target hids h1 hfresh,
   processRemoval_idem d email,
   fun cid g => dirSetGroup_idem d cid g⟩

/-- C1 witness: a concrete directory, a fresh id, and a mapped purchase. -/
theorem c1_witness :
    processPurchase (processPurchase [⟨5, "b@y.com", 1⟩] 7 " A@x.com" (some 2))
        9 " A@x.com" (some 2)
      = processPurchase [⟨5, "b@y.com", 1⟩] 7 " A@x.com" (some 2)
    ∧ processRemoval (processRemoval [⟨5, "b@y.com", 1⟩] " A@x.com") " A@x.com"
      = processRemoval [⟨5, "b@y.com", 1⟩] " A@x.com"
    ∧ (∀ cid g, dirSetGroup (dirSetGroup [⟨5, "b@y.com", 1⟩] cid g) cid g
        = dirSetGroup [⟨5, "b@y.com", 1⟩] cid g) :=
  c1_idempotent_event_processing [⟨5, "b@y.com", 1⟩] 7 9 " A@x.com" (some 2)
    (by decide) (by decide) (by decide)

end BweSpec

